import Mathlib

/-!
Shallow embedding of the board-game engine in `src/app.py`: the three board
classes (`ChessBoard`, `HexChessBoard`, `CheckersBoard`), their piece objects,
the move/undo operations and the game-session turn bookkeeping.

Grids are total functions `Nat → Nat → Option piece`; a Python in-place cell
assignment `board[x][y] = v` becomes a functional update of that cell, and two
sequential assignments become two sequential updates, so the aliasing between
the destination and the source cell when `end == start` behaves exactly as in
Python.  `copy.deepcopy` of a grid is the identity under value semantics, so a
history snapshot is simply the grid value at the moment of the `append`.
`move_piece` additionally returns a `MoveOutcome` recording which branch ran
(the mutating branch or the rejection-message branch); in Python the method
itself returns `None` in both cases and only prints on rejection.
-/

inductive Color
  | white
  | black
  deriving DecidableEq

inductive PieceKind
  | King
  | Queen
  | Rook
  | Bishop
  | Knight
  | Pawn
  deriving DecidableEq

/-- A classic chess piece (classes `King` … `Pawn` in `app.py`): a kind
discriminator plus the `color` attribute set by `ChessPiece.__init__`. -/
structure ChessPiece where
  kind : PieceKind
  color : Color
  deriving DecidableEq

/-- Embeds `CheckersPiece.__init__`: a `color` plus the `is_king` flag
(default `False`). -/
structure CheckersPiece where
  color : Color
  is_king : Bool
  deriving DecidableEq

/-- Embeds `CheckersPiece.promote`: `self.is_king = True`. -/
def CheckersPiece.promote (p : CheckersPiece) : CheckersPiece :=
  { p with is_king := true }

/-- A board grid: cell `(row, col)` holds an optional piece. -/
abbrev Grid (P : Type) := Nat → Nat → Option P

/-- Reading `board[x][y]`. -/
def gget {P : Type} (g : Grid P) (x y : Nat) : Option P := g x y

/-- Writing `board[x][y] = v`: functional update of one cell. -/
def gset {P : Type} (g : Grid P) (x y : Nat) (v : Option P) : Grid P :=
  fun a b => if a = x ∧ b = y then v else g a b

/-- Which branch of `move_piece` ran: the mutating branch (`Applied`) or the
branch printing the rejection message (`Rejected`). -/
inductive MoveOutcome
  | Applied
  | Rejected
  deriving DecidableEq

/-- The mutable state of a board object: the live grid (`self.board`) and the
undo stack (`self.move_history`, most recent snapshot at the head). -/
structure BoardState (P : Type) where
  board : Grid P
  move_history : List (Grid P)

/-- Embeds `piece_order` in `create_initial_board`:
`[Rook, Knight, Bishop, Queen, King, Bishop, Knight, Rook]`. -/
def piece_order : Nat → PieceKind
  | 0 => PieceKind.Rook
  | 1 => PieceKind.Knight
  | 2 => PieceKind.Bishop
  | 3 => PieceKind.Queen
  | 4 => PieceKind.King
  | 5 => PieceKind.Bishop
  | 6 => PieceKind.Knight
  | _ => PieceKind.Rook

/-- Embeds `ChessBoard.create_initial_board`: 8×8, black back rank on row 0, black
pawns on row 1, white pawns on row 6, white back rank on row 7. -/
def ChessBoard.create_initial_board : Grid ChessPiece := fun i j =>
  if j < 8 then
    if i = 0 then some ⟨piece_order j, Color.black⟩
    else if i = 1 then some ⟨PieceKind.Pawn, Color.black⟩
    else if i = 6 then some ⟨PieceKind.Pawn, Color.white⟩
    else if i = 7 then some ⟨piece_order j, Color.white⟩
    else none
  else none

/-- Embeds `ChessBoard.is_valid_move`: `return True` — the placeholder legality
predicate (the comment in the source says the real chess-rule check is
missing on purpose). -/
def ChessBoard.is_valid_move (_piece : ChessPiece) (_s _e : Nat × Nat) : Bool :=
  true

/-- Embeds `ChessBoard.move_piece`: if the start cell holds a piece and
`is_valid_move` agrees, append a snapshot of the pre-move grid to the
history, then `board[x2][y2] = piece; board[x1][y1] = None`.  Otherwise
print the rejection message and change nothing.  Python short-circuits
`piece and self.is_valid_move(...)`, so validation is not reached when the
start cell is empty. -/
def ChessBoard.move_piece (b : BoardState ChessPiece) (s e : Nat × Nat) :
    BoardState ChessPiece × MoveOutcome :=
  match gget b.board s.1 s.2 with
  | none => (b, MoveOutcome.Rejected)
  | some piece =>
    if ChessBoard.is_valid_move piece s e then
      ({ board := gset (gset b.board e.1 e.2 (some piece)) s.1 s.2 none,
         move_history := b.board :: b.move_history }, MoveOutcome.Applied)
    else (b, MoveOutcome.Rejected)

/-- Embeds `ChessBoard.undo_move`: pop the last snapshot into the live grid when the
history is non-empty.  The Python method has no `return` statement on either
path, so its value is `None` — falsy — in both cases; the second component
records the truthiness of that returned value. -/
def ChessBoard.undo_move (b : BoardState ChessPiece) : BoardState ChessPiece × Bool :=
  match b.move_history with
  | [] => (b, false)
  | g :: rest => ({ board := g, move_history := rest }, false)

/-- Embeds `HexChessBoard.create_initial_board`: 11×11, the 8-column patterns written
into columns 2..9 of rows 0/1 (black) and 9/10 (white). -/
def HexChessBoard.create_initial_board : Grid ChessPiece := fun i j =>
  if 2 ≤ j ∧ j < 10 then
    if i = 0 then some ⟨piece_order (j - 2), Color.black⟩
    else if i = 1 then some ⟨PieceKind.Pawn, Color.black⟩
    else if i = 9 then some ⟨PieceKind.Pawn, Color.white⟩
    else if i = 10 then some ⟨piece_order (j - 2), Color.white⟩
    else none
  else none

/-- Embeds `HexChessBoard.is_valid_move`: `return True`, as in `ChessBoard`. -/
def HexChessBoard.is_valid_move (_piece : ChessPiece) (_s _e : Nat × Nat) : Bool :=
  true

/-- Embeds `HexChessBoard.move_piece`: identical logic to `ChessBoard.move_piece`. -/
def HexChessBoard.move_piece (b : BoardState ChessPiece) (s e : Nat × Nat) :
    BoardState ChessPiece × MoveOutcome :=
  match gget b.board s.1 s.2 with
  | none => (b, MoveOutcome.Rejected)
  | some piece =>
    if HexChessBoard.is_valid_move piece s e then
      ({ board := gset (gset b.board e.1 e.2 (some piece)) s.1 s.2 none,
         move_history := b.board :: b.move_history }, MoveOutcome.Applied)
    else (b, MoveOutcome.Rejected)

/-- Embeds `HexChessBoard.undo_move`: same shape as `ChessBoard.undo_move`, and the
Python method likewise returns `None` on both paths. -/
def HexChessBoard.undo_move (b : BoardState ChessPiece) : BoardState ChessPiece × Bool :=
  match b.move_history with
  | [] => (b, false)
  | g :: rest => ({ board := g, move_history := rest }, false)

/-- Embeds `CheckersBoard.create_initial_board`: black pieces on rows 0..2 and white
pieces on rows 5..7, on the cells with `(i + j) % 2 == 1`. -/
def CheckersBoard.create_initial_board : Grid CheckersPiece := fun i j =>
  if j < 8 ∧ (i + j) % 2 = 1 then
    if i < 3 then some ⟨Color.black, false⟩
    else if 5 ≤ i ∧ i < 8 then some ⟨Color.white, false⟩
    else none
  else none

/-- Embeds `CheckersBoard.is_valid_move`.  The method can mutate `self.board` — the
non-king jump removes the midpoint piece inside validation — so the embedding
returns the possibly-updated grid next to the boolean verdict.  The king rule
mirrors the Python chained comparison `abs(dx) == abs(dy) in [1, 2]`, which
parses as `abs(dx) == abs(dy) and abs(dy) in [1, 2]`. -/
def CheckersBoard.is_valid_move (board : Grid CheckersPiece) (piece : CheckersPiece)
    (s e : Nat × Nat) : Grid CheckersPiece × Bool :=
  let dx : Int := (e.1 : Int) - (s.1 : Int)
  let dy : Int := (e.2 : Int) - (s.2 : Int)
  if (gget board e.1 e.2).isSome then (board, false)
  else if piece.is_king then
    (board, decide (dx.natAbs = dy.natAbs ∧ (dy.natAbs = 1 ∨ dy.natAbs = 2)))
  else
    let direction : Int := if piece.color = Color.white then -1 else 1
    if dx = direction ∧ dy.natAbs = 1 then (board, true)
    else if dx = 2 * direction ∧ dy.natAbs = 2 then
      match gget board ((s.1 + e.1) / 2) ((s.2 + e.2) / 2) with
      | some q =>
        if q.color ≠ piece.color then
          (gset board ((s.1 + e.1) / 2) ((s.2 + e.2) / 2) none, true)
        else (board, false)
      | none => (board, false)
    else (board, false)

/-- Embeds `CheckersBoard.move_piece`.  Note the order of effects, as in the source:
`is_valid_move` runs first (possibly removing a jumped piece from the grid),
the snapshot appended to the history is the grid *after* that validation, and
only then is the piece moved.  `piece.promote()` mutates the moved piece
object in place; because a valid move requires an empty destination, the
destination cell differs from the start cell and still holds the moved piece
when `promote` runs, so the promotion is an update of the destination cell. -/
def CheckersBoard.move_piece (b : BoardState CheckersPiece) (s e : Nat × Nat) :
    BoardState CheckersPiece × MoveOutcome :=
  match gget b.board s.1 s.2 with
  | none => (b, MoveOutcome.Rejected)
  | some piece =>
    let vr := CheckersBoard.is_valid_move b.board piece s e
    if vr.2 then
      let moved := gset (gset vr.1 e.1 e.2 (some piece)) s.1 s.2 none
      let promoted :=
        if (piece.color = Color.white ∧ e.1 = 0) ∨ (piece.color = Color.black ∧ e.1 = 7) then
          gset moved e.1 e.2 (some piece.promote)
        else moved
      ({ board := promoted, move_history := vr.1 :: b.move_history }, MoveOutcome.Applied)
    else ({ board := vr.1, move_history := b.move_history }, MoveOutcome.Rejected)

/-- Embeds `CheckersBoard.undo_move`: same shape as `ChessBoard.undo_move`, and the
Python method likewise returns `None` on both paths. -/
def CheckersBoard.undo_move (b : BoardState CheckersPiece) : BoardState CheckersPiece × Bool :=
  match b.move_history with
  | [] => (b, false)
  | g :: rest => ({ board := g, move_history := rest }, false)

/-- State of a `ChessGame` object: its board, the `turn` color and the
`move_count` counter. -/
structure ChessGameState where
  board : BoardState ChessPiece
  turn : Color
  move_count : Nat

/-- Embeds `ChessGame.switch_turn`: `'black' if turn == 'white' else 'white'`. -/
def ChessGame.switch_turn (t : Color) : Color :=
  if t = Color.white then Color.black else Color.white

/-- One pass of the non-undo branch of `ChessGame.play` after both coordinate
strings parsed to in-bounds cells: call `move_piece`, then unconditionally
`switch_turn()` and `move_count += 1` — the Python loop never looks at whether
the move was applied or rejected. -/
def ChessGame.play_step (g : ChessGameState) (s e : Nat × Nat) : ChessGameState :=
  { board := (ChessBoard.move_piece g.board s e).1,
    turn := ChessGame.switch_turn g.turn,
    move_count := g.move_count + 1 }

/-- State of a `HexChessGame` object: its board, the rotating `turn_index`
over `players = ['white', 'black']` and the `move_count` counter. -/
structure HexChessGameState where
  board : BoardState ChessPiece
  turn_index : Nat
  move_count : Nat

/-- Embeds `HexChessGame.switch_turn`: `turn_index = (turn_index + 1) % 2`. -/
def HexChessGame.switch_turn (i : Nat) : Nat := (i + 1) % 2

/-- One pass of the non-undo branch of `HexChessGame.play` after both
coordinate strings parsed: `move_piece`, then unconditionally `switch_turn()`
and `move_count += 1`. -/
def HexChessGame.play_step (g : HexChessGameState) (s e : Nat × Nat) : HexChessGameState :=
  { board := (HexChessBoard.move_piece g.board s e).1,
    turn_index := HexChessGame.switch_turn g.turn_index,
    move_count := g.move_count + 1 }

/-- Number of occupied cells of an `n × n` grid. -/
def pieceCount {P : Type} (g : Grid P) (n : Nat) : Nat :=
  ((List.range n).map (fun x =>
    ((List.range n).filter (fun y => (g x y).isSome)).length)).sum

/-- A fresh classic chess board object (`ChessBoard.__init__`). -/
def chess0 : BoardState ChessPiece :=
  { board := ChessBoard.create_initial_board, move_history := [] }

/-- A fresh hexagonal chess board object (`HexChessBoard.__init__`). -/
def hex0 : BoardState ChessPiece :=
  { board := HexChessBoard.create_initial_board, move_history := [] }

/-- A fresh checkers board object (`CheckersBoard.__init__`). -/
def checkers0 : BoardState CheckersPiece :=
  { board := CheckersBoard.create_initial_board, move_history := [] }

/-- A fresh `ChessGame` session (`ChessGame.__init__`). -/
def chessGame0 : ChessGameState :=
  { board := chess0, turn := Color.white, move_count := 0 }

/-- A fresh `HexChessGame` session (`HexChessGame.__init__`). -/
def hexGame0 : HexChessGameState :=
  { board := hex0, turn_index := 0, move_count := 0 }

/-- A two-piece checkers position: a white man on (6,1) and a black man on
(4,3); after white plays (6,1)→(5,2), white can jump (5,2)→(3,4) over the
black man. -/
def jumpGrid : Grid CheckersPiece := fun i j =>
  if i = 6 ∧ j = 1 then some ⟨Color.white, false⟩
  else if i = 4 ∧ j = 3 then some ⟨Color.black, false⟩
  else none

/-- Board object holding `jumpGrid` with an empty history. -/
def jumpBoard : BoardState CheckersPiece :=
  { board := jumpGrid, move_history := [] }

/-- The initial checkers position with an extra black man placed on (4,3), the
setup of the jump-capture scenario named in the specification. -/
def captureBoard : BoardState CheckersPiece :=
  { board := gset CheckersBoard.create_initial_board 4 3 (some ⟨Color.black, false⟩),
    move_history := [] }

/-- A lone white checkers king on (4,4). -/
def kingBoard : BoardState CheckersPiece :=
  { board := fun i j => if i = 4 ∧ j = 4 then some ⟨Color.white, true⟩ else none,
    move_history := [] }

/-- A lone white checkers man on (1,2), one forward step away from the last
rank. -/
def promoBoard : BoardState CheckersPiece :=
  { board := fun i j => if i = 1 ∧ j = 2 then some ⟨Color.white, false⟩ else none,
    move_history := [] }

/-- A checkers board object whose history holds one snapshot (the initial
layout) while the live grid is empty. -/
def undoBoard : BoardState CheckersPiece :=
  { board := fun _ _ => none, move_history := [CheckersBoard.create_initial_board] }

theorem gget_gset_self {P : Type} (g : Grid P) (x y : Nat) (v : Option P) :
    gget (gset g x y v) x y = v := by
  simp [gget, gset]

theorem gget_gset_ne {P : Type} (g : Grid P) (x y a c : Nat) (v : Option P)
    (h : ¬(a = x ∧ c = y)) : gget (gset g x y v) a c = gget g a c := by
  simp only [gget, gset, if_neg h]

theorem gget_gset {P : Type} (g : Grid P) (x y a c : Nat) (v : Option P) :
    gget (gset g x y v) a c = if a = x ∧ c = y then v else gget g a c := rfl

theorem is_valid_move_cases (g : Grid CheckersPiece) (p : CheckersPiece) (s e : Nat × Nat) :
    (CheckersBoard.is_valid_move g p s e).1 = g ∨
    ((CheckersBoard.is_valid_move g p s e).1 =
        gset g ((s.1 + e.1) / 2) ((s.2 + e.2) / 2) none ∧
      (CheckersBoard.is_valid_move g p s e).2 = true) := by
  simp only [CheckersBoard.is_valid_move]
  split_ifs <;> try exact Or.inl rfl
  all_goals
    cases hm : gget g ((s.1 + e.1) / 2) ((s.2 + e.2) / 2) with
    | none => exact Or.inl rfl
    | some q => by_cases hq : q.color = p.color <;> simp [hq]

theorem is_valid_move_false_grid (g : Grid CheckersPiece) (p : CheckersPiece)
    (s e : Nat × Nat) (h : (CheckersBoard.is_valid_move g p s e).2 = false) :
    (CheckersBoard.is_valid_move g p s e).1 = g := by
  rcases is_valid_move_cases g p s e with h1 | ⟨h1, h2⟩
  · exact h1
  · rw [h] at h2
    exact absurd h2 (by simp)

theorem is_valid_move_frame (g : Grid CheckersPiece) (p : CheckersPiece)
    (s e : Nat × Nat) (a c : Nat)
    (h : ¬(a = (s.1 + e.1) / 2 ∧ c = (s.2 + e.2) / 2)) :
    gget (CheckersBoard.is_valid_move g p s e).1 a c = gget g a c := by
  rcases is_valid_move_cases g p s e with h1 | ⟨h1, h2⟩
  · rw [h1]
  · rw [h1, gget_gset_ne _ _ _ _ _ _ h]

theorem is_valid_move_king_grid (g : Grid CheckersPiece) (p : CheckersPiece)
    (s e : Nat × Nat) (hk : p.is_king = true) :
    (CheckersBoard.is_valid_move g p s e).1 = g := by
  simp only [CheckersBoard.is_valid_move]
  split_ifs <;> simp_all

theorem chess_move_piece_none (b : BoardState ChessPiece) (s e : Nat × Nat)
    (hs : gget b.board s.1 s.2 = none) :
    ChessBoard.move_piece b s e = (b, MoveOutcome.Rejected) := by
  unfold ChessBoard.move_piece
  rw [hs]

theorem chess_move_piece_some (b : BoardState ChessPiece) (s e : Nat × Nat)
    (p : ChessPiece) (hs : gget b.board s.1 s.2 = some p) :
    ChessBoard.move_piece b s e =
      ({ board := gset (gset b.board e.1 e.2 (some p)) s.1 s.2 none,
         move_history := b.board :: b.move_history }, MoveOutcome.Applied) := by
  unfold ChessBoard.move_piece
  rw [hs]
  simp [ChessBoard.is_valid_move]

theorem hex_move_piece_none (b : BoardState ChessPiece) (s e : Nat × Nat)
    (hs : gget b.board s.1 s.2 = none) :
    HexChessBoard.move_piece b s e = (b, MoveOutcome.Rejected) := by
  unfold HexChessBoard.move_piece
  rw [hs]

theorem hex_move_piece_some (b : BoardState ChessPiece) (s e : Nat × Nat)
    (p : ChessPiece) (hs : gget b.board s.1 s.2 = some p) :
    HexChessBoard.move_piece b s e =
      ({ board := gset (gset b.board e.1 e.2 (some p)) s.1 s.2 none,
         move_history := b.board :: b.move_history }, MoveOutcome.Applied) := by
  unfold HexChessBoard.move_piece
  rw [hs]
  simp [HexChessBoard.is_valid_move]

theorem checkers_move_piece_none (b : BoardState CheckersPiece) (s e : Nat × Nat)
    (hs : gget b.board s.1 s.2 = none) :
    CheckersBoard.move_piece b s e = (b, MoveOutcome.Rejected) := by
  unfold CheckersBoard.move_piece
  rw [hs]

theorem checkers_move_piece_some (b : BoardState CheckersPiece) (s e : Nat × Nat)
    (p : CheckersPiece) (hs : gget b.board s.1 s.2 = some p) :
    CheckersBoard.move_piece b s e =
      (if (CheckersBoard.is_valid_move b.board p s e).2 then
        ({ board :=
            if (p.color = Color.white ∧ e.1 = 0) ∨ (p.color = Color.black ∧ e.1 = 7) then
              gset (gset (gset (CheckersBoard.is_valid_move b.board p s e).1
                e.1 e.2 (some p)) s.1 s.2 none) e.1 e.2 (some p.promote)
            else
              gset (gset (CheckersBoard.is_valid_move b.board p s e).1
                e.1 e.2 (some p)) s.1 s.2 none,
           move_history := (CheckersBoard.is_valid_move b.board p s e).1 :: b.move_history },
         MoveOutcome.Applied)
      else
        ({ board := (CheckersBoard.is_valid_move b.board p s e).1,
           move_history := b.move_history }, MoveOutcome.Rejected)) := by
  unfold CheckersBoard.move_piece
  rw [hs]

/-- C4: for every variant, a `move_piece` call that is rejected leaves the
grid and the history stack exactly as they were before the call; in
particular a rejected checkers move never removes any piece (the midpoint
capture inside validation only fires on moves that end up accepted). -/
theorem rejected_move_preserves_state :
    (∀ (b : BoardState ChessPiece) (s e : Nat × Nat),
      (ChessBoard.move_piece b s e).2 = MoveOutcome.Rejected →
      (ChessBoard.move_piece b s e).1 = b) ∧
    (∀ (b : BoardState ChessPiece) (s e : Nat × Nat),
      (HexChessBoard.move_piece b s e).2 = MoveOutcome.Rejected →
      (HexChessBoard.move_piece b s e).1 = b) ∧
    (∀ (b : BoardState CheckersPiece) (s e : Nat × Nat),
      (CheckersBoard.move_piece b s e).2 = MoveOutcome.Rejected →
      (CheckersBoard.move_piece b s e).1 = b) := by
  refine ⟨?_, ?_, ?_⟩
  · intro b s e hrej
    cases hsv : gget b.board s.1 s.2 with
    | none => rw [chess_move_piece_none b s e hsv]
    | some p =>
      rw [chess_move_piece_some b s e p hsv] at hrej
      exact absurd hrej (by simp)
  · intro b s e hrej
    cases hsv : gget b.board s.1 s.2 with
    | none => rw [hex_move_piece_none b s e hsv]
    | some p =>
      rw [hex_move_piece_some b s e p hsv] at hrej
      exact absurd hrej (by simp)
  · intro b s e hrej
    cases hsv : gget b.board s.1 s.2 with
    | none => rw [checkers_move_piece_none b s e hsv]
    | some p =>
      rw [checkers_move_piece_some b s e p hsv] at hrej ⊢
      split_ifs at hrej ⊢ with hv
      have hg := is_valid_move_false_grid b.board p s e (by simpa using hv)
      simp [hg]

/-- C4 witness: one concrete rejected call per variant, each leaving the
board object unchanged. -/
theorem rejected_move_preserves_state_witness :
    (ChessBoard.move_piece chess0 (3, 3) (4, 4)).1 = chess0 ∧
    (HexChessBoard.move_piece hex0 (5, 5) (6, 6)).1 = hex0 ∧
    (CheckersBoard.move_piece checkers0 (5, 2) (4, 2)).1 = checkers0 :=
  ⟨rejected_move_preserves_state.1 chess0 (3, 3) (4, 4) (by decide),
   rejected_move_preserves_state.2.1 hex0 (5, 5) (6, 6) (by decide),
   rejected_move_preserves_state.2.2 checkers0 (5, 2) (4, 2) (by decide)⟩

/-- C5: for orthogonal chess and hex-chess, every move whose start cell holds
a piece and whose cells are in bounds is applied (including `end == start`
and occupied destinations), and every move from an empty start cell is
rejected with the board object unchanged (the placeholder `is_valid_move` is
short-circuited away and never consulted). -/
theorem placeholder_legality :
    (∀ (b : BoardState ChessPiece) (s e : Nat × Nat) (p : ChessPiece),
      s.1 < 8 → s.2 < 8 → e.1 < 8 → e.2 < 8 →
      gget b.board s.1 s.2 = some p →
      (ChessBoard.move_piece b s e).2 = MoveOutcome.Applied) ∧
    (∀ (b : BoardState ChessPiece) (s e : Nat × Nat),
      s.1 < 8 → s.2 < 8 →
      gget b.board s.1 s.2 = none →
      ChessBoard.move_piece b s e = (b, MoveOutcome.Rejected)) ∧
    (∀ (b : BoardState ChessPiece) (s e : Nat × Nat) (p : ChessPiece),
      s.1 < 11 → s.2 < 11 → e.1 < 11 → e.2 < 11 →
      gget b.board s.1 s.2 = some p →
      (HexChessBoard.move_piece b s e).2 = MoveOutcome.Applied) ∧
    (∀ (b : BoardState ChessPiece) (s e : Nat × Nat),
      s.1 < 11 → s.2 < 11 →
      gget b.board s.1 s.2 = none →
      HexChessBoard.move_piece b s e = (b, MoveOutcome.Rejected)) := by
  refine ⟨?_, ?_, ?_, ?_⟩
  · intro b s e p _ _ _ _ hs
    rw [chess_move_piece_some b s e p hs]
  · intro b s e _ _ hs
    exact chess_move_piece_none b s e hs
  · intro b s e p _ _ _ _ hs
    rw [hex_move_piece_some b s e p hs]
  · intro b s e _ _ hs
    exact hex_move_piece_none b s e hs

/-- C5 witness: on the initial boards, a white piece moving onto the occupied
enemy back rank is applied, and a move from an empty cell is rejected. -/
theorem placeholder_legality_witness :
    (ChessBoard.move_piece chess0 (7, 4) (0, 4)).2 = MoveOutcome.Applied ∧
    ChessBoard.move_piece chess0 (3, 0) (4, 0) = (chess0, MoveOutcome.Rejected) ∧
    (HexChessBoard.move_piece hex0 (10, 2) (0, 2)).2 = MoveOutcome.Applied ∧
    HexChessBoard.move_piece hex0 (5, 5) (6, 5) = (hex0, MoveOutcome.Rejected) :=
  ⟨placeholder_legality.1 chess0 (7, 4) (0, 4) ⟨PieceKind.King, Color.white⟩
      (by decide) (by decide) (by decide) (by decide) (by decide),
   placeholder_legality.2.1 chess0 (3, 0) (4, 0) (by decide) (by decide) (by decide),
   placeholder_legality.2.2.1 hex0 (10, 2) (0, 2) ⟨PieceKind.Rook, Color.white⟩
      (by decide) (by decide) (by decide) (by decide) (by decide),
   placeholder_legality.2.2.2 hex0 (5, 5) (6, 5) (by decide) (by decide) (by decide)⟩

/-- C9 (amended): `undo_move` pops the most recent snapshot into the live
grid when the history is non-empty and is a no-op otherwise, but the Python
method returns `None` — falsy — on both paths, so its return value does not
indicate whether an undo was performed. -/
theorem undo_move_return_value :
    (∀ b : BoardState ChessPiece,
      ChessBoard.undo_move b =
        ({ board := b.move_history.headD b.board,
           move_history := b.move_history.tail }, false)) ∧
    (∀ b : BoardState ChessPiece,
      HexChessBoard.undo_move b =
        ({ board := b.move_history.headD b.board,
           move_history := b.move_history.tail }, false)) ∧
    (∀ b : BoardState CheckersPiece,
      CheckersBoard.undo_move b =
        ({ board := b.move_history.headD b.board,
           move_history := b.move_history.tail }, false)) := by
  refine ⟨?_, ?_, ?_⟩ <;> intro b <;> rcases b with ⟨g, _ | ⟨h, t⟩⟩ <;> rfl

/-- C9 counterexample: on a board whose history holds one snapshot, the undo
is performed (the live grid changes to the snapshot) yet the returned value
is falsy, so `undo_move` does not return true exactly when an undo was
performed. -/
theorem undo_returns_false_when_performed :
    (CheckersBoard.undo_move undoBoard).2 = false ∧
    (CheckersBoard.undo_move undoBoard).1.board 5 2 = some ⟨Color.white, false⟩ ∧
    undoBoard.board 5 2 = none := by
  refine ⟨rfl, by decide, rfl⟩

/-- C10: in orthogonal chess and hex-chess, a move with `end == start` from
an occupied in-bounds cell is applied, pushes a history snapshot, and deletes
the piece: the cell is assigned the piece and then cleared as the source,
leaving it empty; every other cell is untouched. -/
theorem self_move_deletes_piece :
    (∀ (b : BoardState ChessPiece) (s : Nat × Nat) (p : ChessPiece) (a c : Nat),
      s.1 < 8 → s.2 < 8 →
      gget b.board s.1 s.2 = some p →
      (ChessBoard.move_piece b s s).2 = MoveOutcome.Applied ∧
      gget ((ChessBoard.move_piece b s s).1).board s.1 s.2 = none ∧
      ((ChessBoard.move_piece b s s).1).move_history = b.board :: b.move_history ∧
      (¬(a = s.1 ∧ c = s.2) →
        gget ((ChessBoard.move_piece b s s).1).board a c = gget b.board a c)) ∧
    (∀ (b : BoardState ChessPiece) (s : Nat × Nat) (p : ChessPiece) (a c : Nat),
      s.1 < 11 → s.2 < 11 →
      gget b.board s.1 s.2 = some p →
      (HexChessBoard.move_piece b s s).2 = MoveOutcome.Applied ∧
      gget ((HexChessBoard.move_piece b s s).1).board s.1 s.2 = none ∧
      ((HexChessBoard.move_piece b s s).1).move_history = b.board :: b.move_history ∧
      (¬(a = s.1 ∧ c = s.2) →
        gget ((HexChessBoard.move_piece b s s).1).board a c = gget b.board a c)) := by
  constructor
  · intro b s p a c _ _ hs
    rw [chess_move_piece_some b s s p hs]
    refine ⟨rfl, gget_gset_self _ _ _ _, rfl, ?_⟩
    intro h
    rw [gget_gset_ne _ _ _ _ _ _ h, gget_gset_ne _ _ _ _ _ _ h]
  · intro b s p a c _ _ hs
    rw [hex_move_piece_some b s s p hs]
    refine ⟨rfl, gget_gset_self _ _ _ _, rfl, ?_⟩
    intro h
    rw [gget_gset_ne _ _ _ _ _ _ h, gget_gset_ne _ _ _ _ _ _ h]

/-- C10 witness: the black rook on (0,0) of the initial chess board and the
black rook on (0,2) of the initial hex board each vanish under a self-move,
while a neighbouring cell is untouched. -/
theorem self_move_deletes_piece_witness :
    (gget ((ChessBoard.move_piece chess0 (0, 0) (0, 0)).1).board 0 0 = none ∧
      gget ((ChessBoard.move_piece chess0 (0, 0) (0, 0)).1).board 0 1 = gget chess0.board 0 1) ∧
    (gget ((HexChessBoard.move_piece hex0 (0, 2) (0, 2)).1).board 0 2 = none ∧
      gget ((HexChessBoard.move_piece hex0 (0, 2) (0, 2)).1).board 0 3 = gget hex0.board 0 3) :=
  ⟨⟨(self_move_deletes_piece.1 chess0 (0, 0) ⟨PieceKind.Rook, Color.black⟩ 0 1
       (by decide) (by decide) (by decide)).2.1,
    (self_move_deletes_piece.1 chess0 (0, 0) ⟨PieceKind.Rook, Color.black⟩ 0 1
       (by decide) (by decide) (by decide)).2.2.2 (by decide)⟩,
   ⟨(self_move_deletes_piece.2 hex0 (0, 2) ⟨PieceKind.Rook, Color.black⟩ 0 3
       (by decide) (by decide) (by decide)).2.1,
    (self_move_deletes_piece.2 hex0 (0, 2) ⟨PieceKind.Rook, Color.black⟩ 0 3
       (by decide) (by decide) (by decide)).2.2.2 (by decide)⟩⟩

theorem checkers_move_applied_iff (b : BoardState CheckersPiece) (s e : Nat × Nat)
    (p : CheckersPiece) (hs : gget b.board s.1 s.2 = some p) :
    (CheckersBoard.move_piece b s e).2 = MoveOutcome.Applied ↔
      (CheckersBoard.is_valid_move b.board p s e).2 = true := by
  rw [checkers_move_piece_some b s e p hs]
  split_ifs with hv <;> simp [hv]

theorem is_valid_move_true_dest (g : Grid CheckersPiece) (p : CheckersPiece)
    (s e : Nat × Nat) (h : (CheckersBoard.is_valid_move g p s e).2 = true) :
    gget g e.1 e.2 = none := by
  cases hd : gget g e.1 e.2 with
  | none => rfl
  | some q =>
    exfalso
    unfold CheckersBoard.is_valid_move at h
    rw [hd] at h
    simp at h

theorem is_valid_move_king_verdict (g : Grid CheckersPiece) (p : CheckersPiece)
    (s e : Nat × Nat) (hk : p.is_king = true) :
    ((CheckersBoard.is_valid_move g p s e).2 = true ↔
      gget g e.1 e.2 = none ∧
      ((e.1 : Int) - (s.1 : Int)).natAbs = ((e.2 : Int) - (s.2 : Int)).natAbs ∧
      (((e.2 : Int) - (s.2 : Int)).natAbs = 1 ∨ ((e.2 : Int) - (s.2 : Int)).natAbs = 2)) := by
  simp only [CheckersBoard.is_valid_move]
  cases hd : gget g e.1 e.2 with
  | some q => simp [hd]
  | none => simp [hd, hk]

/-- C6: a checkers king move is accepted exactly when the destination cell is
empty and `|dx| == |dy|` with that magnitude 1 or 2 (the Python chained
comparison `abs(dx) == abs(dy) in [1, 2]`), and king validation never touches
the grid: no midpoint piece is removed, so a king move never captures. -/
theorem king_move_geometry :
    ∀ (b : BoardState CheckersPiece) (x1 y1 x2 y2 : Nat) (p : CheckersPiece),
      x1 < 8 → y1 < 8 → x2 < 8 → y2 < 8 →
      gget b.board x1 y1 = some p → p.is_king = true →
      (((CheckersBoard.move_piece b (x1, y1) (x2, y2)).2 = MoveOutcome.Applied ↔
          gget b.board x2 y2 = none ∧
          ((x2 : Int) - (x1 : Int)).natAbs = ((y2 : Int) - (y1 : Int)).natAbs ∧
          (((y2 : Int) - (y1 : Int)).natAbs = 1 ∨ ((y2 : Int) - (y1 : Int)).natAbs = 2)) ∧
        (CheckersBoard.is_valid_move b.board p (x1, y1) (x2, y2)).1 = b.board) := by
  intro b x1 y1 x2 y2 p _ _ _ _ hs hk
  refine ⟨?_, is_valid_move_king_grid b.board p (x1, y1) (x2, y2) hk⟩
  rw [checkers_move_applied_iff b (x1, y1) (x2, y2) p hs]
  exact is_valid_move_king_verdict b.board p (x1, y1) (x2, y2) hk

/-- C6 witness: the lone white king on (4,4); validation of its jump to
(2,2) leaves the grid untouched. -/
theorem king_move_geometry_witness :
    (CheckersBoard.is_valid_move kingBoard.board ⟨Color.white, true⟩ (4, 4) (2, 2)).1 =
      kingBoard.board :=
  (king_move_geometry kingBoard 4 4 2 2 ⟨Color.white, true⟩ (by decide) (by decide)
    (by decide) (by decide) (by decide) rfl).2

/-- C7: an applied checkers move that lands a piece on the last rank for its
color (row 0 for white, row 7 for black) leaves a promoted piece on the
destination cell; `promote` only ever sets `is_king` to true, and the piece
an applied move leaves on the destination is the moved piece either unchanged
or promoted — no operation turns a king back into a man. -/
theorem promotion_on_last_rank :
    (∀ (b : BoardState CheckersPiece) (s e : Nat × Nat) (p : CheckersPiece),
      gget b.board s.1 s.2 = some p →
      (CheckersBoard.move_piece b s e).2 = MoveOutcome.Applied →
      ((p.color = Color.white ∧ e.1 = 0) ∨ (p.color = Color.black ∧ e.1 = 7)) →
      gget ((CheckersBoard.move_piece b s e).1).board e.1 e.2 = some ⟨p.color, true⟩) ∧
    (∀ p : CheckersPiece, (CheckersPiece.promote p).is_king = true) ∧
    (∀ (b : BoardState CheckersPiece) (s e : Nat × Nat) (p : CheckersPiece),
      gget b.board s.1 s.2 = some p →
      (CheckersBoard.move_piece b s e).2 = MoveOutcome.Applied →
      gget ((CheckersBoard.move_piece b s e).1).board e.1 e.2 = some p ∨
      gget ((CheckersBoard.move_piece b s e).1).board e.1 e.2 =
        some (CheckersPiece.promote p)) := by
  refine ⟨?_, fun _ => rfl, ?_⟩
  · intro b s e p hs happ hrank
    rw [checkers_move_piece_some b s e p hs] at happ ⊢
    split_ifs at happ ⊢ with hv
    exact gget_gset_self _ _ _ _
  · intro b s e p hs happ
    have hv := (checkers_move_applied_iff b s e p hs).1 happ
    have hdest := is_valid_move_true_dest b.board p s e hv
    have hne : ¬(e.1 = s.1 ∧ e.2 = s.2) := by
      intro h
      rw [h.1, h.2] at hdest
      simp [hdest] at hs
    rw [checkers_move_piece_some b s e p hs, if_pos hv]
    split_ifs with hp
    · right
      exact gget_gset_self _ _ _ _
    · left
      rw [gget_gset_ne _ _ _ _ _ _ hne, gget_gset_self]

/-- C7 witness: the white man on (1,2) steps to (0,3) and is left promoted
there. -/
theorem promotion_on_last_rank_witness :
    gget ((CheckersBoard.move_piece promoBoard (1, 2) (0, 3)).1).board 0 3 =
      some ⟨Color.white, true⟩ :=
  promotion_on_last_rank.1 promoBoard (1, 2) (0, 3) ⟨Color.white, false⟩ (by decide)
    (by decide) (Or.inl ⟨rfl, rfl⟩)

theorem is_valid_move_jump (g : Grid CheckersPiece) (p : CheckersPiece)
    (x1 y1 x2 y2 : Nat)
    (hk : p.is_king = false)
    (hdx : (p.color = Color.white ∧ x1 = x2 + 2) ∨ (p.color = Color.black ∧ x2 = x1 + 2))
    (hdy : y2 = y1 + 2 ∨ y1 = y2 + 2)
    (hdest : gget g x2 y2 = none) :
    CheckersBoard.is_valid_move g p (x1, y1) (x2, y2) =
      match gget g ((x1 + x2) / 2) ((y1 + y2) / 2) with
      | some q =>
        if q.color ≠ p.color then
          (gset g ((x1 + x2) / 2) ((y1 + y2) / 2) none, true)
        else (g, false)
      | none => (g, false) := by
  rcases hdx with ⟨hc, hx⟩ | ⟨hc, hx⟩ <;> subst hx <;> rcases hdy with hy | hy <;> subst hy <;>
    simp only [CheckersBoard.is_valid_move, hc, hk, hdest, Option.isSome_none,
      Bool.false_eq_true, if_false, Bool.false_ne_true, if_true, reduceCtorEq] <;>
    rw [if_neg (by omega), if_pos (by omega)]

/-- C3: a checkers non-king two-step diagonal jump in its forward direction
(`dx = -2` for white, `dx = +2` for black, `|dy| = 2`) onto an empty
destination is accepted exactly when the midpoint cell holds an
opposing-color piece, and applying it removes that midpoint piece; in the
concrete scenario — white man on (5,2), black man on (4,3), (3,4) empty —
`move_piece (5,2) (3,4)` is applied and the piece formerly on (4,3) is gone. -/
theorem nonking_jump_capture :
    (∀ (b : BoardState CheckersPiece) (x1 y1 x2 y2 : Nat) (p : CheckersPiece),
      x1 < 8 → y1 < 8 → x2 < 8 → y2 < 8 →
      gget b.board x1 y1 = some p →
      p.is_king = false →
      ((p.color = Color.white ∧ x1 = x2 + 2) ∨ (p.color = Color.black ∧ x2 = x1 + 2)) →
      (y2 = y1 + 2 ∨ y1 = y2 + 2) →
      gget b.board x2 y2 = none →
      (((CheckersBoard.move_piece b (x1, y1) (x2, y2)).2 = MoveOutcome.Applied ↔
          ∃ q, gget b.board ((x1 + x2) / 2) ((y1 + y2) / 2) = some q ∧ q.color ≠ p.color) ∧
        ((CheckersBoard.move_piece b (x1, y1) (x2, y2)).2 = MoveOutcome.Applied →
          gget ((CheckersBoard.move_piece b (x1, y1) (x2, y2)).1).board
            ((x1 + x2) / 2) ((y1 + y2) / 2) = none))) ∧
    ((CheckersBoard.move_piece captureBoard (5, 2) (3, 4)).2 = MoveOutcome.Applied ∧
      gget ((CheckersBoard.move_piece captureBoard (5, 2) (3, 4)).1).board 4 3 = none) := by
  constructor
  · intro b x1 y1 x2 y2 p _ _ _ _ hs hk hdx hdy hdest
    have hjump := is_valid_move_jump b.board p x1 y1 x2 y2 hk hdx hdy hdest
    constructor
    · rw [checkers_move_applied_iff b (x1, y1) (x2, y2) p hs, hjump]
      cases hm : gget b.board ((x1 + x2) / 2) ((y1 + y2) / 2) with
      | none => simp
      | some q => by_cases hq : q.color = p.color <;> simp [hq]
    · intro happ
      have hv := (checkers_move_applied_iff b (x1, y1) (x2, y2) p hs).1 happ
      have hcap : gget (CheckersBoard.is_valid_move b.board p (x1, y1) (x2, y2)).1
          ((x1 + x2) / 2) ((y1 + y2) / 2) = none := by
        rw [hjump] at hv ⊢
        cases hm : gget b.board ((x1 + x2) / 2) ((y1 + y2) / 2) with
        | none => rw [hm] at hv; simp at hv
        | some q =>
          rw [hm] at hv
          by_cases hq : q.color = p.color
          · simp [hq] at hv
          · simp [hq, gget, gset]
      have hmid : ¬((x1 + x2) / 2 = x2 ∧ (y1 + y2) / 2 = y2) ∧
          ¬((x1 + x2) / 2 = x1 ∧ (y1 + y2) / 2 = y1) := by
        rcases hdx with ⟨-, hx⟩ | ⟨-, hx⟩ <;> subst hx <;>
          exact ⟨fun h => by omega, fun h => by omega⟩
      rw [checkers_move_piece_some b (x1, y1) (x2, y2) p hs, if_pos hv]
      split_ifs with hp
      · rw [gget_gset_ne _ _ _ _ _ _ hmid.1, gget_gset_ne _ _ _ _ _ _ hmid.2,
          gget_gset_ne _ _ _ _ _ _ hmid.1]
        exact hcap
      · rw [gget_gset_ne _ _ _ _ _ _ hmid.2, gget_gset_ne _ _ _ _ _ _ hmid.1]
        exact hcap
  · exact ⟨by decide, by decide⟩

/-- C3 witness: the universal jump rule applied to the concrete scenario of
the claim, with every hypothesis discharged. -/
theorem nonking_jump_capture_witness :
    gget ((CheckersBoard.move_piece captureBoard (5, 2) (3, 4)).1).board
      ((5 + 3) / 2) ((2 + 4) / 2) = none :=
  (nonking_jump_capture.1 captureBoard 5 2 3 4 ⟨Color.white, false⟩ (by decide) (by decide)
      (by decide) (by decide) (by decide) rfl (Or.inl ⟨rfl, rfl⟩) (Or.inl rfl) (by decide)).2
    (by decide)

/-- C1 (amended): for chess and hex-chess an applied move pushes the exact
pre-call grid onto the history and one undo restores it; for checkers the
pushed snapshot is the grid as `is_valid_move` left it — the pre-call grid
with the jumped piece, if any, already removed — so one undo after an
applied move restores that validation-time grid, which differs from the
pre-call grid precisely on a capturing jump. -/
theorem undo_restores_validation_snapshot :
    (∀ (b : BoardState ChessPiece) (s e : Nat × Nat),
      (ChessBoard.move_piece b s e).2 = MoveOutcome.Applied →
      ((ChessBoard.undo_move (ChessBoard.move_piece b s e).1).1).board = b.board ∧
      ((ChessBoard.move_piece b s e).1).move_history.head? = some b.board) ∧
    (∀ (b : BoardState ChessPiece) (s e : Nat × Nat),
      (HexChessBoard.move_piece b s e).2 = MoveOutcome.Applied →
      ((HexChessBoard.undo_move (HexChessBoard.move_piece b s e).1).1).board = b.board ∧
      ((HexChessBoard.move_piece b s e).1).move_history.head? = some b.board) ∧
    (∀ (b : BoardState CheckersPiece) (s e : Nat × Nat) (p : CheckersPiece),
      gget b.board s.1 s.2 = some p →
      (CheckersBoard.move_piece b s e).2 = MoveOutcome.Applied →
      ((CheckersBoard.undo_move (CheckersBoard.move_piece b s e).1).1).board =
        (CheckersBoard.is_valid_move b.board p s e).1 ∧
      ((CheckersBoard.move_piece b s e).1).move_history.head? =
        some (CheckersBoard.is_valid_move b.board p s e).1) := by
  refine ⟨?_, ?_, ?_⟩
  · intro b s e happ
    cases hsv : gget b.board s.1 s.2 with
    | none =>
      rw [chess_move_piece_none b s e hsv] at happ
      exact absurd happ (by simp)
    | some p =>
      rw [chess_move_piece_some b s e p hsv]
      exact ⟨rfl, rfl⟩
  · intro b s e happ
    cases hsv : gget b.board s.1 s.2 with
    | none =>
      rw [hex_move_piece_none b s e hsv] at happ
      exact absurd happ (by simp)
    | some p =>
      rw [hex_move_piece_some b s e p hsv]
      exact ⟨rfl, rfl⟩
  · intro b s e p hs happ
    have hv := (checkers_move_applied_iff b s e p hs).1 happ
    rw [checkers_move_piece_some b s e p hs, if_pos hv]
    exact ⟨rfl, rfl⟩

/-- C1 witness: a concrete applied chess move whose undo restores the
pre-call grid, and the concrete capturing jump whose undo restores the
validation-time grid. -/
theorem undo_restores_validation_snapshot_witness :
    (((ChessBoard.undo_move (ChessBoard.move_piece chess0 (6, 0) (5, 0)).1).1).board =
        chess0.board ∧
      ((ChessBoard.move_piece chess0 (6, 0) (5, 0)).1).move_history.head? =
        some chess0.board) ∧
    (((CheckersBoard.undo_move (CheckersBoard.move_piece captureBoard (5, 2) (3, 4)).1).1).board =
        (CheckersBoard.is_valid_move captureBoard.board ⟨Color.white, false⟩ (5, 2) (3, 4)).1 ∧
      ((CheckersBoard.move_piece captureBoard (5, 2) (3, 4)).1).move_history.head? =
        some (CheckersBoard.is_valid_move captureBoard.board ⟨Color.white, false⟩ (5, 2) (3, 4)).1) :=
  ⟨undo_restores_validation_snapshot.1 chess0 (6, 0) (5, 0) (by decide),
   undo_restores_validation_snapshot.2.2 captureBoard (5, 2) (3, 4) ⟨Color.white, false⟩
     (by decide) (by decide)⟩

/-- C1 counterexample: white man (6,1), black man (4,3); after M1 =
(6,1)→(5,2) and M2 = the jump (5,2)→(3,4), both applied, one undo does not
restore the grid immediately after M1 — the snapshot pushed during M2 was
taken after the capture removed the black man from (4,3). -/
theorem undo_after_jump_counterexample :
    (CheckersBoard.move_piece jumpBoard (6, 1) (5, 2)).2 = MoveOutcome.Applied ∧
    (CheckersBoard.move_piece (CheckersBoard.move_piece jumpBoard (6, 1) (5, 2)).1
      (5, 2) (3, 4)).2 = MoveOutcome.Applied ∧
    (CheckersBoard.undo_move
        (CheckersBoard.move_piece (CheckersBoard.move_piece jumpBoard (6, 1) (5, 2)).1
          (5, 2) (3, 4)).1).1.board ≠
      ((CheckersBoard.move_piece jumpBoard (6, 1) (5, 2)).1).board := by
  refine ⟨by decide, by decide, fun h => ?_⟩
  have h43 := congrFun (congrFun h 4) 3
  revert h43
  decide

/-- C2 (amended): after a structurally rejected move attempt with well-formed
in-bounds coordinates the session still switches the turn — and it also
increments `move_count` by one: in the code `move_count` counts every
well-formed attempt, accepted or rejected, not only accepted moves. -/
theorem rejected_attempt_switches_turn_and_counts :
    (∀ (g : ChessGameState) (s e : Nat × Nat),
      s.1 < 8 → s.2 < 8 → e.1 < 8 → e.2 < 8 →
      gget g.board.board s.1 s.2 = none →
      (ChessBoard.move_piece g.board s e).2 = MoveOutcome.Rejected ∧
      (ChessGame.play_step g s e).turn = ChessGame.switch_turn g.turn ∧
      (ChessGame.play_step g s e).move_count = g.move_count + 1) ∧
    (∀ (g : HexChessGameState) (s e : Nat × Nat),
      s.1 < 11 → s.2 < 11 → e.1 < 11 → e.2 < 11 →
      gget g.board.board s.1 s.2 = none →
      (HexChessBoard.move_piece g.board s e).2 = MoveOutcome.Rejected ∧
      (HexChessGame.play_step g s e).turn_index = HexChessGame.switch_turn g.turn_index ∧
      (HexChessGame.play_step g s e).move_count = g.move_count + 1) := by
  constructor
  · intro g s e _ _ _ _ hs
    refine ⟨?_, rfl, rfl⟩
    rw [chess_move_piece_none g.board s e hs]
  · intro g s e _ _ _ _ hs
    refine ⟨?_, rfl, rfl⟩
    rw [hex_move_piece_none g.board s e hs]

/-- C2 witness: a rejected attempt from an empty cell on each fresh session,
with the turn switched and the counter advanced. -/
theorem rejected_attempt_switches_turn_and_counts_witness :
    ((ChessBoard.move_piece chessGame0.board (3, 3) (4, 4)).2 = MoveOutcome.Rejected ∧
      (ChessGame.play_step chessGame0 (3, 3) (4, 4)).turn =
        ChessGame.switch_turn chessGame0.turn ∧
      (ChessGame.play_step chessGame0 (3, 3) (4, 4)).move_count =
        chessGame0.move_count + 1) ∧
    ((HexChessBoard.move_piece hexGame0.board (5, 5) (6, 5)).2 = MoveOutcome.Rejected ∧
      (HexChessGame.play_step hexGame0 (5, 5) (6, 5)).turn_index =
        HexChessGame.switch_turn hexGame0.turn_index ∧
      (HexChessGame.play_step hexGame0 (5, 5) (6, 5)).move_count =
        hexGame0.move_count + 1) :=
  ⟨rejected_attempt_switches_turn_and_counts.1 chessGame0 (3, 3) (4, 4)
      (by decide) (by decide) (by decide) (by decide) (by decide),
   rejected_attempt_switches_turn_and_counts.2 hexGame0 (5, 5) (6, 5)
      (by decide) (by decide) (by decide) (by decide) (by decide)⟩

/-- C2 counterexample: a fresh chess session, attempt (3,3)→(4,4) from an
empty start cell — the move is rejected, yet `move_count` goes from 0 to 1
(and the turn passes to black), contradicting the claim that `move_count` is
not incremented on rejected attempts. -/
theorem rejected_attempt_increments_count :
    (ChessBoard.move_piece chessGame0.board (3, 3) (4, 4)).2 = MoveOutcome.Rejected ∧
    chessGame0.move_count = 0 ∧
    (ChessGame.play_step chessGame0 (3, 3) (4, 4)).move_count = 1 ∧
    (ChessGame.play_step chessGame0 (3, 3) (4, 4)).turn = Color.black :=
  ⟨by decide, rfl, rfl, rfl⟩

/-- C8 (amended): pieces are conserved only up to explicit overwrites.  In
chess and hex-chess an applied move writes the moved piece to `end` and then
clears `start`, characterizing the result grid cellwise — so a move with
`end == start` deletes the piece, a move onto an occupied cell destroys the
occupant, and the piece count can decrease; in checkers an applied move
changes nothing outside `start`, `end` and the jump midpoint, so a piece is
removed beyond relocation only by the non-king jump capture; no variant ever
creates a new piece. -/
theorem piece_conservation :
    (∀ (b : BoardState ChessPiece) (s e : Nat × Nat) (p : ChessPiece) (a c : Nat),
      gget b.board s.1 s.2 = some p →
      gget ((ChessBoard.move_piece b s e).1).board a c =
        if a = s.1 ∧ c = s.2 then none
        else if a = e.1 ∧ c = e.2 then some p
        else gget b.board a c) ∧
    (∀ (b : BoardState ChessPiece) (s e : Nat × Nat) (p : ChessPiece) (a c : Nat),
      gget b.board s.1 s.2 = some p →
      gget ((HexChessBoard.move_piece b s e).1).board a c =
        if a = s.1 ∧ c = s.2 then none
        else if a = e.1 ∧ c = e.2 then some p
        else gget b.board a c) ∧
    (∀ (b : BoardState CheckersPiece) (s e : Nat × Nat) (p : CheckersPiece) (a c : Nat),
      gget b.board s.1 s.2 = some p →
      (CheckersBoard.move_piece b s e).2 = MoveOutcome.Applied →
      ¬(a = s.1 ∧ c = s.2) → ¬(a = e.1 ∧ c = e.2) →
      ¬(a = (s.1 + e.1) / 2 ∧ c = (s.2 + e.2) / 2) →
      gget ((CheckersBoard.move_piece b s e).1).board a c = gget b.board a c) := by
  refine ⟨?_, ?_, ?_⟩
  · intro b s e p a c hs
    rw [chess_move_piece_some b s e p hs]
    by_cases h1 : a = s.1 ∧ c = s.2
    · rw [if_pos h1, h1.1, h1.2, gget_gset_self]
    · rw [if_neg h1, gget_gset_ne _ _ _ _ _ _ h1]
      by_cases h2 : a = e.1 ∧ c = e.2
      · rw [if_pos h2, h2.1, h2.2, gget_gset_self]
      · rw [if_neg h2, gget_gset_ne _ _ _ _ _ _ h2]
  · intro b s e p a c hs
    rw [hex_move_piece_some b s e p hs]
    by_cases h1 : a = s.1 ∧ c = s.2
    · rw [if_pos h1, h1.1, h1.2, gget_gset_self]
    · rw [if_neg h1, gget_gset_ne _ _ _ _ _ _ h1]
      by_cases h2 : a = e.1 ∧ c = e.2
      · rw [if_pos h2, h2.1, h2.2, gget_gset_self]
      · rw [if_neg h2, gget_gset_ne _ _ _ _ _ _ h2]
  · intro b s e p a c hs happ h1 h2 h3
    have hv := (checkers_move_applied_iff b s e p hs).1 happ
    rw [checkers_move_piece_some b s e p hs, if_pos hv]
    split_ifs with hp
    · rw [gget_gset_ne _ _ _ _ _ _ h2, gget_gset_ne _ _ _ _ _ _ h1,
        gget_gset_ne _ _ _ _ _ _ h2]
      exact is_valid_move_frame b.board p s e a c h3
    · rw [gget_gset_ne _ _ _ _ _ _ h1, gget_gset_ne _ _ _ _ _ _ h2]
      exact is_valid_move_frame b.board p s e a c h3

/-- C8 witness: the rook capture (0,0)→(0,1) on the initial chess board
leaves the rook on (0,1); the hex self-move is characterized the same way;
and the concrete checkers jump leaves the untouched cell (5,4) unchanged. -/
theorem piece_conservation_witness :
    gget ((ChessBoard.move_piece chess0 (0, 0) (0, 1)).1).board 0 1 =
      some ⟨PieceKind.Rook, Color.black⟩ ∧
    gget ((HexChessBoard.move_piece hex0 (0, 2) (0, 2)).1).board 0 2 = none ∧
    gget ((CheckersBoard.move_piece captureBoard (5, 2) (3, 4)).1).board 5 4 =
      gget captureBoard.board 5 4 :=
  ⟨piece_conservation.1 chess0 (0, 0) (0, 1) ⟨PieceKind.Rook, Color.black⟩ 0 1 (by decide),
   piece_conservation.2.1 hex0 (0, 2) (0, 2) ⟨PieceKind.Rook, Color.black⟩ 0 2 (by decide),
   piece_conservation.2.2 captureBoard (5, 2) (3, 4) ⟨Color.white, false⟩ 5 4
     (by decide) (by decide) (by decide) (by decide) (by decide)⟩

/-- C8 counterexample: on the initial chess board (32 pieces) the applied
move (0,0)→(0,1) lands the black rook on an occupied cell and the count
drops to 31, and the applied self-move (0,0)→(0,0) also drops it to 31 —
applied chess moves can decrease the number of pieces on the grid. -/
theorem chess_capture_decreases_count :
    (ChessBoard.move_piece chess0 (0, 0) (0, 1)).2 = MoveOutcome.Applied ∧
    pieceCount chess0.board 8 = 32 ∧
    pieceCount ((ChessBoard.move_piece chess0 (0, 0) (0, 1)).1).board 8 = 31 ∧
    (ChessBoard.move_piece chess0 (0, 0) (0, 0)).2 = MoveOutcome.Applied ∧
    pieceCount ((ChessBoard.move_piece chess0 (0, 0) (0, 0)).1).board 8 = 31 :=
  ⟨by decide, by decide, by decide, by decide, by decide⟩
